import Mathlib

/-!
Shallow embedding of `src/os2mo_dar_client/dar_client.py` (OS2mo DAR client).

The DAR registry is modelled as a total function `DB` from address category
and identifier to an optional record payload: the batch endpoint
(`GET {base}/{category}?id=u1|u2|...`) answers a query with exactly the
records of the queried identifiers present in the registry, omitting absent
ones from the response array (the protocol documented in the source and
spec).  Identifiers (UUIDs) are opaque values with decidable equality,
modelled as `Nat`.  Each fetch function returns, besides the result pair of
the Python function, the list of batch HTTP requests it issues, so that
request-count properties are statable.

The pure functions (`dar_fetch_non_chunked`, `dar_fetch_chunked`,
`dar_fetch_one`, `dar_fetch_go`, `dar_fetch`) embed the computation that the
source performs once the session is available; the `_client` variants add
the `_get_session` acquisition (which raises `ValueError("Session not set")`
when no session is open) at exactly the points where the source performs it.
-/

namespace DarClient

/-- `class AddressType(str, Enum)`: the four address categories, in
declaration order. -/
inductive AddressType where
  | adresser
  | adgangsadresser
  | historik_adresser
  | historik_adgangsadresser
deriving DecidableEq, Repr

/-- The enum member values: URL path segments. -/
def AddressType.value : AddressType → String
  | .adresser => "adresser"
  | .adgangsadresser => "adgangsadresser"
  | .historik_adresser => "historik/adresser"
  | .historik_adgangsadresser => "historik/adgangsadresser"

/-- `ALL_ADDRESS_TYPES = list(AddressType)`: all members in declaration
order. -/
def ALL_ADDRESS_TYPES : List AddressType :=
  [.adresser, .adgangsadresser, .historik_adresser, .historik_adgangsadresser]

/-- DAR identifiers (UUIDs); equality is exact.  The concrete 128-bit
representation is irrelevant to the algorithm, so `Nat` stands in. -/
abbrev Ident := Nat

/-- A record returned by DAR for a resolved identifier: the `"id"` field
(the source reads `addr["id"]`) plus the remaining payload, which the
client passes through uninterpreted. -/
structure AddressReply where
  id : Ident
  payload : Nat
deriving DecidableEq, Repr

/-- The remote registry: which payload (if any) each category holds for
each identifier. -/
abbrev DB := AddressType → Ident → Option Nat

/-- One batch `GET {base}/{category}?id=...` request: the category queried
and the identifiers in the `id` query parameter. -/
structure BatchRequest where
  addrtype : AddressType
  ids : List Ident
deriving DecidableEq, Repr

/-- Response body of the batch endpoint for a query: the JSON array holding
one record per queried identifier present in the registry; identifiers with
no match are simply absent from the array. -/
def batchResponse (db : DB) (addrtype : AddressType) (ids : List Ident) :
    List AddressReply :=
  ids.filterMap (fun u => (db addrtype u).map (fun p => { id := u, payload := p }))

/-- `AsyncDARClient._dar_fetch_non_chunked`: one batch GET for the whole
identifier set, then
`result = {addr["id"]: addr for addr in body}`,
`found_uuids = set(map(itemgetter("id"), body))`,
`missing = set(uuids) - found_uuids`.
The input set's (unspecified) iteration order is the list order.  The third
component records the single request issued. -/
def dar_fetch_non_chunked (db : DB) (uuids : List Ident) (addrtype : AddressType) :
    List (Ident × AddressReply) × List Ident × List BatchRequest :=
  let body := batchResponse db addrtype uuids
  let result := body.map (fun addr => (addr.id, addr))
  let found_uuids := body.map AddressReply.id
  let missing := uuids.filter (fun u => decide (u ∉ found_uuids))
  (result, missing, [{ addrtype := addrtype, ids := uuids }])

/-- `more_itertools.chunked(uuids, chunk_size)`: successive blocks of
`chunk_size` elements, the last block possibly shorter.  The client only
ever calls this with a positive chunk size (and a non-empty list); the
zero case is given a harmless value to keep the function total. -/
def chunked : List Ident → Nat → List (List Ident)
  | [], _ => []
  | a :: l, 0 => [a :: l]
  | a :: l, n + 1 => (a :: l).take (n + 1) :: chunked ((a :: l).drop (n + 1)) (n + 1)
termination_by l _ => l.length
decreasing_by simp [List.length_drop]; omega

/-- `AsyncDARClient._dar_fetch_chunked`: chunk the identifiers, run
`_dar_fetch_non_chunked` on every chunk (concurrently, via `gather`), then
`combined_result = dict(ChainMap(*result_dicts))` — an association-list
append, whose lookup takes the first (earliest-chunk) occurrence — and
`combined_missing = set.union(*missing_sets)`. -/
def dar_fetch_chunked (db : DB) (uuids : List Ident) (addrtype : AddressType)
    (chunk_size : Nat) :
    List (Ident × AddressReply) × List Ident × List BatchRequest :=
  let uuid_chunks := chunked uuids chunk_size
  let results := uuid_chunks.map (fun c => dar_fetch_non_chunked db c addrtype)
  ((results.map (fun r => r.1)).flatten,
   (results.map (fun r => r.2.1)).flatten,
   (results.map (fun r => r.2.2)).flatten)

/-- `AsyncDARClient._dar_fetch`: short-circuit on an empty set, use the
non-chunked fetch when the set fits in one chunk, chunk otherwise.
`chunk_size` defaults to 150 as in the source. -/
def dar_fetch_one (db : DB) (uuids : List Ident) (addrtype : AddressType)
    (chunk_size : Nat := 150) :
    List (Ident × AddressReply) × List Ident × List BatchRequest :=
  if uuids.length = 0 then ([], [], [])
  else if uuids.length ≤ chunk_size then dar_fetch_non_chunked db uuids addrtype
  else dar_fetch_chunked db uuids addrtype chunk_size

/-- Python `addrtypes or ALL_ADDRESS_TYPES`: both `None` and the empty
list are falsy, so both select all four categories. -/
def orAllAddressTypes : Option (List AddressType) → List AddressType
  | none => ALL_ADDRESS_TYPES
  | some l => if l.isEmpty then ALL_ADDRESS_TYPES else l

/-- The category loop of `AsyncDARClient.dar_fetch`: fetch the current
identifiers in the current category, accumulate the results with
`ChainMap(combined_result, result)` (earlier categories in front, hence
preferred by lookup), `break` when nothing is missing, and otherwise
continue with `uuids = missing`.  After the last category the loop
variable `missing` is returned unchanged.  The `_address_fetched` hook the
source then awaits is a no-op (`pass`) and does not affect the result. -/
def dar_fetch_go (db : DB) (chunk_size : Nat) :
    List Ident → List AddressType →
    List (Ident × AddressReply) × List Ident × List BatchRequest
  | uuids, [] => ([], uuids, [])
  | uuids, addrtype :: rest =>
    let r := dar_fetch_one db uuids addrtype chunk_size
    if r.2.1.isEmpty then r
    else
      let r2 := dar_fetch_go db chunk_size r.2.1 rest
      (r.1 ++ r2.1, r2.2.1, r.2.2 ++ r2.2.2)

/-- `AsyncDARClient.dar_fetch`: resolve the identifier set across the
given categories (all four when the argument is `None` or empty). -/
def dar_fetch (db : DB) (uuids : List Ident)
    (addrtypes : Option (List AddressType) := none) (chunk_size : Nat := 150) :
    List (Ident × AddressReply) × List Ident × List BatchRequest :=
  dar_fetch_go db chunk_size uuids (orAllAddressTypes addrtypes)

/-- The exceptions the embedded code paths can raise:
`ValueError` (`"Session not set"`, `"Not found"`),
`aiohttp.ClientResponseError` (carrying the HTTP status, raised by
`raise_for_status`), any other `aiohttp.ClientError` (transport failure),
and `AttributeError` (reading an attribute that was never assigned). -/
inductive DarError where
  | valueError (msg : String)
  | clientResponseError (status : Nat)
  | clientError (e : Nat)
  | attributeError (attr : String)
deriving DecidableEq, Repr

/-- Outcome of one single-identifier GET
(`GET {base}/{category}/{uuid}?struktur=mini&noformat=1`):
a 200 response with a record body, a non-2xx status (`raise_for_status`
turns it into `aiohttp.ClientResponseError`; 404 means not found), or a
transport failure (`aiohttp.ClientError` that carries no status). -/
inductive SingleResp where
  | ok (reply : AddressReply)
  | httpErr (status : Nat)
  | netErr (e : Nat)
deriving DecidableEq, Repr

/-- The remote service's behaviour on the single-identifier endpoint. -/
abbrev SingleServer := Ident → AddressType → SingleResp

/-- The mutable client state: `self._session` (a live session is an
abstract token) and the warnings emitted so far by `warnings.warn`. -/
structure ClientState where
  _session : Option Nat
  warnings : List String
deriving DecidableEq, Repr

/-- `AsyncDARClient.aopen`: warn and keep the existing session if one is
open, otherwise install a newly created session (`fresh` stands for the
new `aiohttp.ClientSession`). -/
def aopen (fresh : Nat) (st : ClientState) : ClientState :=
  match st._session with
  | some _ => { st with warnings := st.warnings ++ ["aopen called with existing session"] }
  | none => { st with _session := some fresh }

/-- `AsyncDARClient.aclose`: warn if no session is open, otherwise close
and clear it. -/
def aclose (st : ClientState) : ClientState :=
  match st._session with
  | none => { st with warnings := st.warnings ++ ["aclose called without session"] }
  | some _ => { st with _session := none }

/-- `AsyncDARClient._get_session`: the session, or
`ValueError("Session not set")`. -/
def get_session (st : ClientState) : Except DarError Nat :=
  match st._session with
  | none => .error (.valueError "Session not set")
  | some s => .ok s

/-- Outcome of the health probe's `GET {base}/autocomplete`: a status, a
client-side connection error (`aiohttp.ClientError`), or expiry of the
explicit timeout (`asyncio` `TimeoutError`). -/
inductive ProbeResp where
  | status (code : Nat)
  | connectionError (e : Nat)
  | timedOut
deriving DecidableEq, Repr

/-- `AsyncDARClient.healthcheck`: acquire the session (a missing session
raises `ValueError` past the `except` clauses, which catch only
`aiohttp.ClientError` and `TimeoutError`), then map a 200 response to
`True` and any other status, connection error or timeout to `False`. -/
def healthcheck (st : ClientState) (probe : ProbeResp) : Except DarError Bool :=
  match st._session with
  | none => .error (.valueError "Session not set")
  | some _ =>
    match probe with
    | .status code => if code = 200 then .ok true else .ok false
    | .connectionError _ => .ok false
    | .timedOut => .ok false

/-- `_dar_fetch_non_chunked` as invoked on the client: the request is
issued through `self._get_session()`, so without an open session it
raises `ValueError("Session not set")` instead of reaching the network. -/
def dar_fetch_non_chunked_client (st : ClientState) (db : DB) (uuids : List Ident)
    (addrtype : AddressType) :
    Except DarError (List (Ident × AddressReply) × List Ident × List BatchRequest) :=
  match st._session with
  | none => .error (.valueError "Session not set")
  | some _ => .ok (dar_fetch_non_chunked db uuids addrtype)

/-- `_dar_fetch_chunked` on the client: every chunk task acquires the
session, so without one the gathered tasks raise `ValueError` and
`gather` propagates it. -/
def dar_fetch_chunked_client (st : ClientState) (db : DB) (uuids : List Ident)
    (addrtype : AddressType) (chunk_size : Nat) :
    Except DarError (List (Ident × AddressReply) × List Ident × List BatchRequest) :=
  match st._session with
  | none => .error (.valueError "Session not set")
  | some _ => .ok (dar_fetch_chunked db uuids addrtype chunk_size)

/-- `_dar_fetch` on the client: the empty-set short circuit happens before
any session access. -/
def dar_fetch_one_client (st : ClientState) (db : DB) (uuids : List Ident)
    (addrtype : AddressType) (chunk_size : Nat := 150) :
    Except DarError (List (Ident × AddressReply) × List Ident × List BatchRequest) :=
  if uuids.length = 0 then .ok ([], [], [])
  else if uuids.length ≤ chunk_size then dar_fetch_non_chunked_client st db uuids addrtype
  else dar_fetch_chunked_client st db uuids addrtype chunk_size

/-- The `dar_fetch` category loop on the client, propagating any raised
error. -/
def dar_fetch_go_client (st : ClientState) (db : DB) (chunk_size : Nat) :
    List Ident → List AddressType →
    Except DarError (List (Ident × AddressReply) × List Ident × List BatchRequest)
  | uuids, [] => .ok ([], uuids, [])
  | uuids, addrtype :: rest =>
    match dar_fetch_one_client st db uuids addrtype chunk_size with
    | .error e => .error e
    | .ok r =>
      if r.2.1.isEmpty then .ok r
      else
        match dar_fetch_go_client st db chunk_size r.2.1 rest with
        | .error e => .error e
        | .ok r2 => .ok (r.1 ++ r2.1, r2.2.1, r.2.2 ++ r2.2.2)

/-- `AsyncDARClient.dar_fetch` on the client. -/
def dar_fetch_client (st : ClientState) (db : DB) (uuids : List Ident)
    (addrtypes : Option (List AddressType) := none) (chunk_size : Nat := 150) :
    Except DarError (List (Ident × AddressReply) × List Ident × List BatchRequest) :=
  dar_fetch_go_client st db chunk_size uuids (orAllAddressTypes addrtypes)

/-- The category loop of `AsyncDARClient.dar_fetch_single`: per category,
`_dar_fetch_single` acquires the session and issues one GET;
`raise_for_status` failures surface as `aiohttp.ClientResponseError`, of
which only status 404 is caught (`continue`); any other exception
propagates; a 200 response is returned at once (after the no-op
`_address_fetched` hook); an exhausted list raises
`ValueError("Not found")`.  The second component lists the categories
attempted, in order. -/
def dar_fetch_single_go (st : ClientState) (resp : SingleServer) (uuid : Ident) :
    List AddressType → Except DarError AddressReply × List AddressType
  | [] => (.error (.valueError "Not found"), [])
  | addrtype :: rest =>
    match st._session with
    | none => (.error (.valueError "Session not set"), [addrtype])
    | some _ =>
      match resp uuid addrtype with
      | .ok reply => (.ok reply, [addrtype])
      | .httpErr status =>
        if status = 404 then
          let r := dar_fetch_single_go st resp uuid rest
          (r.1, addrtype :: r.2)
        else (.error (.clientResponseError status), [addrtype])
      | .netErr e => (.error (.clientError e), [addrtype])

/-- `AsyncDARClient.dar_fetch_single`: try the categories (all four when
the argument is `None` or empty) in order. -/
def dar_fetch_single (st : ClientState) (resp : SingleServer) (uuid : Ident)
    (addrtypes : Option (List AddressType) := none) :
    Except DarError AddressReply × List AddressType :=
  dar_fetch_single_go st resp uuid (orAllAddressTypes addrtypes)

/-- Attribute names of `AsyncDARClient` instances touched by `__init__`. -/
inductive PyAttr where
  | session
  | baseurl
  | retrying_stop
  | retrying_wait
deriving DecidableEq, BEq, Repr

/-- Python values stored in those attributes. -/
inductive PyVal where
  | noneVal
  | strVal (s : String)
  | policyVal (p : Nat)
deriving DecidableEq, Repr

/-- Attribute lookup on the instance dict; the class dict of
`AsyncDARClient` defines no data attributes, so a name absent here raises
`AttributeError`. -/
def getattrOpt (d : List (PyAttr × PyVal)) (a : PyAttr) : Option PyVal :=
  d.lookup a

/-- `AsyncDARClient.__init__(self, *, retrying_stop=None, retrying_wait=None)`,
statement by statement:
`self._session = None`;
`self._baseurl = "https://api.dataforsyningen.dk"`;
`self._retrying_stop or stop_after_attempt(5)` — an attribute *read* of
`self._retrying_stop`, whose result is discarded;
`self._retrying_wait or wait_exponential(multiplier=2, min=1)` — likewise.
On success the final instance dict is returned. -/
def asyncDARClient_init (retrying_stop retrying_wait : Option PyVal) :
    Except DarError (List (PyAttr × PyVal)) :=
  let d1 : List (PyAttr × PyVal) := [(PyAttr.session, PyVal.noneVal)]
  let d2 := (PyAttr.baseurl, PyVal.strVal "https://api.dataforsyningen.dk") :: d1
  match getattrOpt d2 PyAttr.retrying_stop with
  | none => .error (.attributeError "_retrying_stop")
  | some _ =>
    match getattrOpt d2 PyAttr.retrying_wait with
    | none => .error (.attributeError "_retrying_wait")
    | some _ => .ok d2

/-- A small concrete registry used to instantiate the theorems: category
`adresser` resolves even identifiers, `adgangsadresser` resolves 1. -/
def exampleDb : DB := fun t u =>
  match t with
  | .adresser => if u % 2 = 0 then some (u + 100) else none
  | .adgangsadresser => if u = 1 then some 201 else none
  | _ => none

/-! ### Helper lemmas -/

/-- Resolvability of an identifier in one category of the registry. -/
def resolves (db : DB) (addrtype : AddressType) (u : Ident) : Bool :=
  (db addrtype u).isSome

lemma batchResponse_ids (db : DB) (t : AddressType) (uuids : List Ident) :
    (batchResponse db t uuids).map AddressReply.id = uuids.filter (resolves db t) := by
  induction uuids with
  | nil => rfl
  | cons a l ih =>
    simp only [batchResponse, List.filterMap_cons] at ih ⊢
    cases h : db t a <;> simp [resolves, h, ih]

lemma non_chunked_found_ids (db : DB) (t : AddressType) (uuids : List Ident) :
    (dar_fetch_non_chunked db uuids t).1.map Prod.fst = uuids.filter (resolves db t) := by
  have : (dar_fetch_non_chunked db uuids t).1.map Prod.fst =
      (batchResponse db t uuids).map AddressReply.id := by
    simp [dar_fetch_non_chunked, List.map_map, Function.comp_def]
  rw [this, batchResponse_ids]

lemma non_chunked_missing (db : DB) (t : AddressType) (uuids : List Ident) :
    (dar_fetch_non_chunked db uuids t).2.1 = uuids.filter (fun u => !(resolves db t u)) := by
  show uuids.filter _ = uuids.filter _
  apply List.filter_congr
  intro u hu
  simp [batchResponse_ids, List.mem_filter, hu]

lemma non_chunked_partition (db : DB) (t : AddressType) (uuids : List Ident) :
    List.Perm
      ((dar_fetch_non_chunked db uuids t).1.map Prod.fst ++ (dar_fetch_non_chunked db uuids t).2.1)
      uuids := by
  rw [non_chunked_found_ids, non_chunked_missing]
  exact List.filter_append_perm _ uuids

lemma chunked_flatten (l : List Ident) (n : Nat) : (chunked l n).flatten = l := by
  induction l, n using chunked.induct with
  | case1 n => simp [chunked]
  | case2 a l => simp [chunked]
  | case3 a l n ih =>
    simp only [chunked, List.flatten_cons, List.drop_succ_cons, List.take_succ_cons,
      List.cons_append] at ih ⊢
    rw [ih, List.take_append_drop]

lemma chunked_length_pos : ∀ (l : List Ident) (n : Nat), 0 < n →
    (chunked l n).length = (l.length + (n - 1)) / n := by
  intro l n
  induction l, n using chunked.induct with
  | case1 n =>
    intro hn
    simp only [chunked, List.length_nil, Nat.zero_add, List.length]
    exact (Nat.div_eq_of_lt (by omega)).symm
  | case2 a l => intro h; omega
  | case3 a l n ih =>
    intro _
    have hih := ih (Nat.succ_pos n)
    simp only [chunked, List.length_cons, Nat.succ_sub_one, List.drop_succ_cons,
      List.length_drop, List.length_take] at hih ⊢
    rw [hih]
    have harith : l.length + 1 + n = l.length + (n + 1) := by omega
    rw [harith, Nat.add_div_right _ (Nat.succ_pos n)]
    by_cases hc : n ≤ l.length
    · have h1 : l.length - n + n = l.length := by omega
      rw [h1]
    · have h1 : l.length - n + n = n := by omega
      rw [h1, Nat.div_eq_of_lt (by omega), Nat.div_eq_of_lt (by omega)]

lemma chunked_chunk_length_le : ∀ (l : List Ident) (n : Nat), 0 < n →
    ∀ c ∈ chunked l n, c.length ≤ n := by
  intro l n
  induction l, n using chunked.induct with
  | case1 n => simp [chunked]
  | case2 a l => intro h; omega
  | case3 a l n ih =>
    intro _ c hc
    simp only [chunked, List.mem_cons] at hc
    rcases hc with rfl | hc
    · exact List.length_take_le (n + 1) (a :: l)
    · exact ih (Nat.succ_pos n) c hc

lemma flatten_map_singleton {α β : Type} (f : α → β) (L : List α) :
    (L.map (fun a => [f a])).flatten = L.map f := by
  induction L with
  | nil => rfl
  | cons a L ih => simp [ih]

lemma chunked_fetch_found (db : DB) (uuids : List Ident) (t : AddressType) (cs : Nat) :
    (dar_fetch_chunked db uuids t cs).1 =
      ((chunked uuids cs).map (fun c => (dar_fetch_non_chunked db c t).1)).flatten := by
  simp [dar_fetch_chunked, List.map_map, Function.comp_def]

lemma chunked_fetch_missing (db : DB) (uuids : List Ident) (t : AddressType) (cs : Nat) :
    (dar_fetch_chunked db uuids t cs).2.1 =
      ((chunked uuids cs).map (fun c => (dar_fetch_non_chunked db c t).2.1)).flatten := by
  simp [dar_fetch_chunked, List.map_map, Function.comp_def]

lemma chunked_fetch_requests (db : DB) (uuids : List Ident) (t : AddressType) (cs : Nat) :
    (dar_fetch_chunked db uuids t cs).2.2 =
      (chunked uuids cs).map (fun c => ({ addrtype := t, ids := c } : BatchRequest)) := by
  have h : (dar_fetch_chunked db uuids t cs).2.2 =
      ((chunked uuids cs).map
        (fun c => [({ addrtype := t, ids := c } : BatchRequest)])).flatten := by
    simp [dar_fetch_chunked, dar_fetch_non_chunked, List.map_map, Function.comp_def]
  rw [h, flatten_map_singleton]

lemma chunked_fetch_found_ids (db : DB) (uuids : List Ident) (t : AddressType) (cs : Nat) :
    (dar_fetch_chunked db uuids t cs).1.map Prod.fst = uuids.filter (resolves db t) := by
  rw [chunked_fetch_found, List.map_flatten, List.map_map]
  have h : ((chunked uuids cs).map
        (List.map Prod.fst ∘ fun c => (dar_fetch_non_chunked db c t).1)) =
      (chunked uuids cs).map (List.filter (resolves db t)) := by
    apply List.map_congr_left
    intro c _
    exact non_chunked_found_ids db t c
  rw [h, ← List.filter_flatten, chunked_flatten]

lemma chunked_fetch_missing_ids (db : DB) (uuids : List Ident) (t : AddressType) (cs : Nat) :
    (dar_fetch_chunked db uuids t cs).2.1 = uuids.filter (fun u => !(resolves db t u)) := by
  rw [chunked_fetch_missing]
  have h : ((chunked uuids cs).map (fun c => (dar_fetch_non_chunked db c t).2.1)) =
      (chunked uuids cs).map (List.filter (fun u => !(resolves db t u))) := by
    apply List.map_congr_left
    intro c _
    exact non_chunked_missing db t c
  rw [h, ← List.filter_flatten, chunked_flatten]

lemma one_found_ids (db : DB) (uuids : List Ident) (t : AddressType) (cs : Nat) :
    (dar_fetch_one db uuids t cs).1.map Prod.fst = uuids.filter (resolves db t) := by
  by_cases h0 : uuids.length = 0
  · have he : uuids = [] := List.length_eq_zero.mp h0
    subst he; rfl
  · by_cases hle : uuids.length ≤ cs
    · simp [dar_fetch_one, h0, hle, non_chunked_found_ids]
    · simp [dar_fetch_one, h0, hle, chunked_fetch_found_ids]

lemma one_missing (db : DB) (uuids : List Ident) (t : AddressType) (cs : Nat) :
    (dar_fetch_one db uuids t cs).2.1 = uuids.filter (fun u => !(resolves db t u)) := by
  by_cases h0 : uuids.length = 0
  · have he : uuids = [] := List.length_eq_zero.mp h0
    subst he; rfl
  · by_cases hle : uuids.length ≤ cs
    · simp [dar_fetch_one, h0, hle, non_chunked_missing]
    · simp [dar_fetch_one, h0, hle, chunked_fetch_missing_ids]

lemma one_partition (db : DB) (uuids : List Ident) (t : AddressType) (cs : Nat) :
    List.Perm
      ((dar_fetch_one db uuids t cs).1.map Prod.fst ++ (dar_fetch_one db uuids t cs).2.1)
      uuids := by
  rw [one_found_ids, one_missing]
  exact List.filter_append_perm _ uuids

lemma one_length (db : DB) (uuids : List Ident) (t : AddressType) (cs : Nat) :
    (dar_fetch_one db uuids t cs).1.length + (dar_fetch_one db uuids t cs).2.1.length =
      uuids.length := by
  have h := (one_partition db uuids t cs).length_eq
  simpa [List.length_append, List.length_map] using h

lemma one_requests_addrtype (db : DB) (uuids : List Ident) (t : AddressType) (cs : Nat) :
    ∀ r ∈ (dar_fetch_one db uuids t cs).2.2, r.addrtype = t := by
  by_cases h0 : uuids.length = 0
  · simp [dar_fetch_one, h0]
  · by_cases hle : uuids.length ≤ cs
    · simp [dar_fetch_one, h0, hle, dar_fetch_non_chunked]
    · intro r hr
      simp only [dar_fetch_one, h0, hle, if_false, if_neg] at hr
      rw [chunked_fetch_requests] at hr
      obtain ⟨c, _, rfl⟩ := List.mem_map.mp hr
      rfl

lemma go_partition (db : DB) (cs : Nat) : ∀ (ts : List AddressType) (uuids : List Ident),
    List.Perm
      ((dar_fetch_go db cs uuids ts).1.map Prod.fst ++ (dar_fetch_go db cs uuids ts).2.1)
      uuids := by
  intro ts
  induction ts with
  | nil => intro uuids; simp [dar_fetch_go]
  | cons t rest ih =>
    intro uuids
    have hp := one_partition db uuids t cs
    by_cases hm : (dar_fetch_one db uuids t cs).2.1.isEmpty
    · simp only [dar_fetch_go, hm, if_true]
      exact hp
    · simp only [dar_fetch_go, hm, if_false, Bool.false_eq_true]
      rw [List.map_append, List.append_assoc]
      exact ((ih _).append_left _).trans hp

lemma go_nil_uuids (db : DB) (cs : Nat) (ts : List AddressType) :
    dar_fetch_go db cs [] ts = ([], [], []) := by
  cases ts with
  | nil => rfl
  | cons t rest => simp [dar_fetch_go, dar_fetch_one]

lemma lookup_append_some {l1 l2 : List (Ident × AddressReply)} {u : Ident} {v : AddressReply}
    (h : l1.lookup u = some v) : (l1 ++ l2).lookup u = some v := by
  induction l1 with
  | nil => simp [List.lookup] at h
  | cons x t ih =>
    obtain ⟨k, w⟩ := x
    by_cases hk : u = k
    · simpa [List.lookup, hk] using h
    · have hb : (u == k) = false := by simp [hk]
      simp only [List.lookup, List.cons_append, hb] at h ⊢
      exact ih h

lemma lookup_append_none {l1 l2 : List (Ident × AddressReply)} {u : Ident}
    (h : l1.lookup u = none) : (l1 ++ l2).lookup u = l2.lookup u := by
  induction l1 with
  | nil => rfl
  | cons x t ih =>
    obtain ⟨k, w⟩ := x
    by_cases hk : u = k
    · simp [List.lookup, hk] at h
    · have hb : (u == k) = false := by simp [hk]
      simp only [List.lookup, List.cons_append, hb] at h ⊢
      exact ih h

lemma lookup_eq_of_perm :
    ∀ {l l' : List (Ident × AddressReply)}, List.Perm l l' →
      (l.map Prod.fst).Nodup → ∀ u, l.lookup u = l'.lookup u := by
  intro l l' h
  induction h with
  | nil => intro _ u; rfl
  | cons x p ih =>
    intro hn u
    obtain ⟨k, w⟩ := x
    simp only [List.map_cons, List.nodup_cons] at hn
    by_cases hk : u = k
    · simp [List.lookup, hk]
    · have hb : (u == k) = false := by simp [hk]
      simp only [List.lookup, hb]
      exact ih hn.2 u
  | swap x y t =>
    intro hn u
    obtain ⟨k1, w1⟩ := x
    obtain ⟨k2, w2⟩ := y
    simp only [List.map_cons, List.nodup_cons, List.mem_cons] at hn
    have hne : k2 ≠ k1 := fun he => (hn.1 (Or.inl he)).elim
    have hne' : k1 ≠ k2 := fun he => hne he.symm
    have hb21 : (k2 == k1) = false := by simp [hne]
    have hb12 : (k1 == k2) = false := by simp [hne']
    by_cases h1 : u = k1 <;> by_cases h2 : u = k2
    · subst h1
      exact (hne' h2).elim
    · subst h1
      simp [List.lookup, hb12]
    · subst h2
      simp [List.lookup, hb21]
    · have hbu1 : (u == k1) = false := by simp [h1]
      have hbu2 : (u == k2) = false := by simp [h2]
      simp [List.lookup, hbu1, hbu2]
  | trans p1 p2 ih1 ih2 =>
    intro hn u
    have hn2 := ((p1.map Prod.fst).nodup_iff).mp hn
    rw [ih1 hn u, ih2 hn2 u]

lemma countP_mem_of_flatten_count_one :
    ∀ (L : List (List Ident)) (u : Ident), L.flatten.count u = 1 →
      L.countP (fun c => decide (u ∈ c)) = 1 := by
  intro L u
  induction L with
  | nil => intro h; simp at h
  | cons c L ih =>
    intro h
    rw [List.flatten_cons, List.count_append] at h
    by_cases hc : u ∈ c
    · have h1 : 0 < c.count u := List.count_pos_iff.mpr hc
      have h3 : ∀ c' ∈ L, u ∉ c' := by
        intro c' hc' hu
        have hpos : 0 < L.flatten.count u :=
          List.count_pos_iff.mpr (List.mem_flatten.mpr ⟨c', hc', hu⟩)
        omega
      rw [List.countP_cons]
      have hz : L.countP (fun c' => decide (u ∈ c')) = 0 := by
        apply List.countP_eq_zero.mpr
        intro c' hc'
        simpa using h3 c' hc'
      simp [hc, hz]
    · have h1 : c.count u = 0 := List.count_eq_zero.mpr hc
      rw [List.countP_cons]
      simp only [hc, decide_eq_true_eq, if_neg, decide_False, Bool.false_eq_true,
        Nat.add_zero]
      exact ih (by omega)

lemma orAll_of_ne_nil (ts : List AddressType) (h : ts ≠ []) :
    orAllAddressTypes (some ts) = ts := by
  cases ts with
  | nil => exact (h rfl).elim
  | cons t rest => rfl

lemma orAll_ne_nil (ats : Option (List AddressType)) : orAllAddressTypes ats ≠ [] := by
  cases ats with
  | none => simp [orAllAddressTypes, ALL_ADDRESS_TYPES]
  | some l =>
    cases l with
    | nil => simp [orAllAddressTypes, ALL_ADDRESS_TYPES]
    | cons t r => simp [orAllAddressTypes]

lemma go_cons_of_empty (db : DB) (cs : Nat) (uuids : List Ident) (t : AddressType)
    (rest : List AddressType) (hm : (dar_fetch_one db uuids t cs).2.1.isEmpty = true) :
    dar_fetch_go db cs uuids (t :: rest) = dar_fetch_one db uuids t cs := by
  simp [dar_fetch_go, hm]

lemma go_cons_of_nonempty (db : DB) (cs : Nat) (uuids : List Ident) (t : AddressType)
    (rest : List AddressType) (hm : (dar_fetch_one db uuids t cs).2.1.isEmpty = false) :
    dar_fetch_go db cs uuids (t :: rest) =
      ((dar_fetch_one db uuids t cs).1 ++
        (dar_fetch_go db cs (dar_fetch_one db uuids t cs).2.1 rest).1,
       (dar_fetch_go db cs (dar_fetch_one db uuids t cs).2.1 rest).2.1,
       (dar_fetch_one db uuids t cs).2.2 ++
        (dar_fetch_go db cs (dar_fetch_one db uuids t cs).2.1 rest).2.2) := by
  simp [dar_fetch_go, hm]

lemma one_client_open (st : ClientState) (s : Nat) (hs : st._session = some s)
    (db : DB) (uuids : List Ident) (t : AddressType) (cs : Nat) :
    dar_fetch_one_client st db uuids t cs = .ok (dar_fetch_one db uuids t cs) := by
  by_cases h0 : uuids.length = 0 <;> by_cases hle : uuids.length ≤ cs <;>
    simp [dar_fetch_one_client, dar_fetch_one, dar_fetch_non_chunked_client,
      dar_fetch_chunked_client, h0, hle, hs]

lemma go_client_open (db : DB) (cs : Nat) (st : ClientState) (s : Nat)
    (hs : st._session = some s) :
    ∀ (ts : List AddressType) (uuids : List Ident),
      dar_fetch_go_client st db cs uuids ts = .ok (dar_fetch_go db cs uuids ts) := by
  intro ts
  induction ts with
  | nil => intro uuids; rfl
  | cons t rest ih =>
    intro uuids
    have hone := one_client_open st s hs db uuids t cs
    by_cases hm : (dar_fetch_one db uuids t cs).2.1.isEmpty <;>
      simp [dar_fetch_go_client, dar_fetch_go, hone, hm, ih]

lemma one_client_closed_err (db : DB) (cs : Nat) (st : ClientState)
    (hs : st._session = none) (uuids : List Ident) (t : AddressType) (hne : uuids ≠ []) :
    dar_fetch_one_client st db uuids t cs = .error (.valueError "Session not set") := by
  have h0 : ¬uuids.length = 0 := fun h => hne (List.length_eq_zero.mp h)
  by_cases hle : uuids.length ≤ cs <;>
    simp [dar_fetch_one_client, dar_fetch_non_chunked_client, dar_fetch_chunked_client,
      h0, hle, hs]

lemma go_client_closed_err (db : DB) (cs : Nat) (st : ClientState)
    (hs : st._session = none) (uuids : List Ident) (hne : uuids ≠ [])
    (t : AddressType) (rest : List AddressType) :
    dar_fetch_go_client st db cs uuids (t :: rest) = .error (.valueError "Session not set") := by
  simp [dar_fetch_go_client, one_client_closed_err db cs st hs uuids t hne]

lemma go_client_nil_uuids (st : ClientState) (db : DB) (cs : Nat) :
    ∀ ts : List AddressType, dar_fetch_go_client st db cs [] ts = .ok ([], [], []) := by
  intro ts
  cases ts with
  | nil => rfl
  | cons t rest => rfl

lemma single_go_all_notfound (st : ClientState) (s : Nat) (hs : st._session = some s)
    (resp : SingleServer) (uuid : Ident) :
    ∀ ts : List AddressType, (∀ t ∈ ts, resp uuid t = .httpErr 404) →
      dar_fetch_single_go st resp uuid ts = (.error (.valueError "Not found"), ts) := by
  intro ts
  induction ts with
  | nil => intro _; rfl
  | cons t rest ih =>
    intro hall
    have h404 : resp uuid t = .httpErr 404 := hall t (List.mem_cons_self t rest)
    have hr := ih (fun t2 ht2 => hall t2 (List.mem_cons_of_mem t ht2))
    simp [dar_fetch_single_go, hs, h404, hr]

/-- The single-identifier endpoint behaviour used to instantiate the
theorems: `adresser` has no match (404), `adgangsadresser` matches,
`historik/adresser` is broken (500), `historik/adgangsadresser` is
unreachable (transport error). -/
def exampleResp : SingleServer := fun _ t =>
  match t with
  | .adresser => .httpErr 404
  | .adgangsadresser => .ok { id := 7, payload := 42 }
  | .historik_adresser => .httpErr 500
  | .historik_adgangsadresser => .netErr 3

/-! ### Claim theorems -/

/-- C1: For every identifier set (Nodup list) and every non-empty category
list, the found map and missing set returned by `dar_fetch` are disjoint
and together partition the input identifier set; in particular, for a
single-category fetch (`_dar_fetch`) on `n` identifiers,
`|found| + |missing| = n`, where a chunk's missing set is the chunk's
input identifiers minus the identifiers present in its response body. -/
theorem dar_fetch_found_missing_partition (db : DB) (chunk_size : Nat)
    (uuids : List Ident) (ts : List AddressType)
    (hnd : uuids.Nodup) (hne : ts ≠ []) :
    (∀ u, u ∈ uuids ↔
      (u ∈ (dar_fetch db uuids (some ts) chunk_size).1.map Prod.fst ∨
       u ∈ (dar_fetch db uuids (some ts) chunk_size).2.1)) ∧
    (∀ u, u ∈ (dar_fetch db uuids (some ts) chunk_size).1.map Prod.fst →
       u ∉ (dar_fetch db uuids (some ts) chunk_size).2.1) ∧
    (∀ t : AddressType,
       (dar_fetch_one db uuids t chunk_size).1.length +
         (dar_fetch_one db uuids t chunk_size).2.1.length = uuids.length) := by
  have hperm : List.Perm
      ((dar_fetch db uuids (some ts) chunk_size).1.map Prod.fst ++
        (dar_fetch db uuids (some ts) chunk_size).2.1) uuids := by
    unfold dar_fetch
    rw [orAll_of_ne_nil ts hne]
    exact go_partition db chunk_size ts uuids
  have hnodup := hperm.nodup_iff.mpr hnd
  refine ⟨?_, ?_, fun t => one_length db uuids t chunk_size⟩
  · intro u
    constructor
    · intro hu
      have hm := hperm.mem_iff.mpr hu
      simpa [List.mem_append] using hm
    · intro h
      apply hperm.mem_iff.mp
      simpa [List.mem_append] using h
  · intro u hf hm
    rw [List.nodup_append] at hnodup
    exact hnodup.2.2 hf hm

/-- Witness for C1: concrete registry, identifiers and category list. -/
theorem dar_fetch_found_missing_partition_witness :
    ([0, 1, 2] : List Ident).Nodup ∧
    (([AddressType.adresser] : List AddressType) ≠ []) ∧
    (∀ u, u ∈ ([0, 1, 2] : List Ident) ↔
      (u ∈ (dar_fetch exampleDb [0, 1, 2] (some [AddressType.adresser]) 150).1.map Prod.fst ∨
       u ∈ (dar_fetch exampleDb [0, 1, 2] (some [AddressType.adresser]) 150).2.1)) :=
  ⟨by decide, by decide,
    (dar_fetch_found_missing_partition exampleDb 150 [0, 1, 2] [AddressType.adresser]
      (by decide) (by decide)).1⟩

/-- C2: the constructor body reads the attribute `_retrying_stop` before it
has ever been assigned, so construction always raises `AttributeError`,
whatever the `retrying_stop`/`retrying_wait` keyword arguments; it never
returns an instance, so the arguments are never stored. -/
theorem init_raises_attribute_error (retrying_stop retrying_wait : Option PyVal) :
    asyncDARClient_init retrying_stop retrying_wait =
      .error (.attributeError "_retrying_stop") ∧
    ∀ d, asyncDARClient_init retrying_stop retrying_wait ≠ .ok d := by
  constructor
  · rfl
  · intro d h
    rw [show asyncDARClient_init retrying_stop retrying_wait =
      .error (.attributeError "_retrying_stop") from rfl] at h
    exact Except.noConfusion h

/-- C3: `_dar_fetch` issues no request on an empty set; exactly one batch
GET covering the whole set for `1 ≤ n ≤ chunk_size`; and for
`n > chunk_size > 0` exactly `⌈n / chunk_size⌉` batch GETs, one per chunk
of at most `chunk_size` identifiers; `chunk_size` defaults to 150. -/
theorem dar_fetch_one_request_counts (db : DB) (uuids : List Ident)
    (t : AddressType) (chunk_size : Nat) :
    (uuids = [] → dar_fetch_one db uuids t chunk_size = ([], [], [])) ∧
    (uuids ≠ [] → uuids.length ≤ chunk_size →
      (dar_fetch_one db uuids t chunk_size).2.2 = [{ addrtype := t, ids := uuids }]) ∧
    (chunk_size < uuids.length → 0 < chunk_size →
      (dar_fetch_one db uuids t chunk_size).2.2.length =
        (uuids.length + (chunk_size - 1)) / chunk_size ∧
      (dar_fetch_one db uuids t chunk_size).2.2 =
        (chunked uuids chunk_size).map (fun c => { addrtype := t, ids := c }) ∧
      (∀ r ∈ (dar_fetch_one db uuids t chunk_size).2.2, r.ids.length ≤ chunk_size)) ∧
    dar_fetch_one db uuids t = dar_fetch_one db uuids t 150 := by
  refine ⟨?_, ?_, ?_, rfl⟩
  · intro h
    subst h
    rfl
  · intro hne hle
    have h0 : ¬uuids.length = 0 := fun h => hne (List.length_eq_zero.mp h)
    simp [dar_fetch_one, h0, hle, dar_fetch_non_chunked]
  · intro hgt hpos
    have h0 : ¬uuids.length = 0 := by omega
    have hle : ¬uuids.length ≤ chunk_size := by omega
    have hreq : (dar_fetch_one db uuids t chunk_size).2.2 =
        (chunked uuids chunk_size).map (fun c => { addrtype := t, ids := c }) := by
      simp only [dar_fetch_one, h0, hle, if_false]
      exact chunked_fetch_requests db uuids t chunk_size
    refine ⟨?_, hreq, ?_⟩
    · rw [hreq, List.length_map]
      exact chunked_length_pos uuids chunk_size hpos
    · intro r hr
      rw [hreq] at hr
      obtain ⟨c, hc, rfl⟩ := List.mem_map.mp hr
      exact chunked_chunk_length_le uuids chunk_size hpos c hc

/-- Witness for C3: one request below the chunk size, two requests for
three identifiers at chunk size two. -/
theorem dar_fetch_one_request_counts_witness :
    (([1, 2, 3] : List Ident) ≠ [] ∧ ([1, 2, 3] : List Ident).length ≤ 150 ∧
      (dar_fetch_one exampleDb [1, 2, 3] .adresser 150).2.2 =
        [{ addrtype := .adresser, ids := [1, 2, 3] }]) ∧
    (2 < ([1, 2, 3] : List Ident).length ∧ 0 < 2 ∧
      (dar_fetch_one exampleDb [1, 2, 3] .adresser 2).2.2.length = 2) := by
  refine ⟨⟨by decide, by decide, ?_⟩, ⟨by decide, by decide, ?_⟩⟩
  · exact (dar_fetch_one_request_counts exampleDb [1, 2, 3] .adresser 150).2.1
      (by decide) (by decide)
  · have h := ((dar_fetch_one_request_counts exampleDb [1, 2, 3] .adresser 2).2.2.1
      (by decide) (by decide)).1
    simpa using h

/-- C4: single-identifier resolution with category fallback: 404 means try
the next category; a success returns immediately having tried no further
category; a non-404 HTTP error or a transport error aborts and propagates
unmodified; exhaustion of all categories fails with the not-found
`ValueError`. -/
theorem dar_fetch_single_fallback (sess : Nat) (w : List String) (resp : SingleServer)
    (uuid : Ident) (t : AddressType) (rest : List AddressType) :
    (resp uuid t = .httpErr 404 →
      dar_fetch_single_go ⟨some sess, w⟩ resp uuid (t :: rest) =
        ((dar_fetch_single_go ⟨some sess, w⟩ resp uuid rest).1,
         t :: (dar_fetch_single_go ⟨some sess, w⟩ resp uuid rest).2)) ∧
    (∀ reply, resp uuid t = .ok reply →
      dar_fetch_single_go ⟨some sess, w⟩ resp uuid (t :: rest) = (.ok reply, [t])) ∧
    (∀ status, status ≠ 404 → resp uuid t = .httpErr status →
      dar_fetch_single_go ⟨some sess, w⟩ resp uuid (t :: rest) =
        (.error (.clientResponseError status), [t])) ∧
    (∀ e, resp uuid t = .netErr e →
      dar_fetch_single_go ⟨some sess, w⟩ resp uuid (t :: rest) =
        (.error (.clientError e), [t])) ∧
    (∀ ts : List AddressType, (∀ t2 ∈ ts, resp uuid t2 = .httpErr 404) →
      dar_fetch_single_go ⟨some sess, w⟩ resp uuid ts =
        (.error (.valueError "Not found"), ts)) := by
  refine ⟨?_, ?_, ?_, ?_, single_go_all_notfound ⟨some sess, w⟩ sess rfl resp uuid⟩
  · intro h
    simp [dar_fetch_single_go, h]
  · intro reply h
    simp [dar_fetch_single_go, h]
  · intro status hst h
    simp [dar_fetch_single_go, h, hst]
  · intro e h
    simp [dar_fetch_single_go, h]

/-- Witness for C4: 404 in the first category, success in the second. -/
theorem dar_fetch_single_fallback_witness :
    (exampleResp 7 .adresser = .httpErr 404) ∧
    dar_fetch_single_go ⟨some 0, []⟩ exampleResp 7 [.adresser, .adgangsadresser] =
      (.ok { id := 7, payload := 42 }, [.adresser, .adgangsadresser]) := by
  refine ⟨rfl, ?_⟩
  have h1 := (dar_fetch_single_fallback 0 [] exampleResp 7 .adresser [.adgangsadresser]).1 rfl
  have h2 := (dar_fetch_single_fallback 0 [] exampleResp 7 .adgangsadresser []).2.1
    { id := 7, payload := 42 } rfl
  rw [h1, h2]

/-- C5: the chunked fetch's merged found map and missing set are the
(concatenated) unions of the per-chunk found maps and missing sets; each
input identifier lies in exactly one chunk, the per-chunk found key sets
are pairwise disjoint, and the merged map's lookup is the same for every
ordering (completion order) of the per-chunk result maps. -/
theorem dar_fetch_chunked_merge (db : DB) (uuids : List Ident) (t : AddressType)
    (cs : Nat) (hnd : uuids.Nodup) :
    ((dar_fetch_chunked db uuids t cs).1 =
      ((chunked uuids cs).map (fun c => (dar_fetch_non_chunked db c t).1)).flatten) ∧
    ((dar_fetch_chunked db uuids t cs).2.1 =
      ((chunked uuids cs).map (fun c => (dar_fetch_non_chunked db c t).2.1)).flatten) ∧
    (∀ u ∈ uuids, (chunked uuids cs).countP (fun c => decide (u ∈ c)) = 1) ∧
    (List.Pairwise
      (fun c1 c2 => ∀ u, u ∈ (dar_fetch_non_chunked db c1 t).1.map Prod.fst →
        u ∉ (dar_fetch_non_chunked db c2 t).1.map Prod.fst)
      (chunked uuids cs)) ∧
    (∀ ds : List (List (Ident × AddressReply)),
      List.Perm ds ((chunked uuids cs).map (fun c => (dar_fetch_non_chunked db c t).1)) →
      ∀ u, ds.flatten.lookup u = (dar_fetch_chunked db uuids t cs).1.lookup u) := by
  have hflat : (chunked uuids cs).flatten.Nodup := by
    rw [chunked_flatten]
    exact hnd
  refine ⟨chunked_fetch_found db uuids t cs, chunked_fetch_missing db uuids t cs, ?_, ?_, ?_⟩
  · intro u hu
    apply countP_mem_of_flatten_count_one
    rw [chunked_flatten]
    exact List.count_eq_one_of_mem hnd hu
  · have hpw := (List.nodup_flatten.mp hflat).2
    apply hpw.imp
    intro c1 c2 hdisj u h1 h2
    rw [non_chunked_found_ids] at h1 h2
    exact hdisj (List.mem_of_mem_filter h1) (List.mem_of_mem_filter h2)
  · intro ds hperm u
    have hkeys : ((dar_fetch_chunked db uuids t cs).1.map Prod.fst).Nodup := by
      rw [chunked_fetch_found_ids]
      exact hnd.filter _
    have hflp : List.Perm ds.flatten (dar_fetch_chunked db uuids t cs).1 := by
      rw [chunked_fetch_found]
      exact hperm.flatten
    have hdk : (ds.flatten.map Prod.fst).Nodup := ((hflp.map Prod.fst).nodup_iff).mpr hkeys
    exact lookup_eq_of_perm hflp hdk u

/-- Witness for C5: three identifiers in chunks of two. -/
theorem dar_fetch_chunked_merge_witness :
    ([0, 1, 2] : List Ident).Nodup ∧
    (chunked [0, 1, 2] 2).countP (fun c => decide ((0 : Ident) ∈ c)) = 1 :=
  ⟨by decide,
    (dar_fetch_chunked_merge exampleDb [0, 1, 2] .adresser 2 (by decide)).2.2.1 0 (by decide)⟩

/-- C6: in the cross-category merge of `dar_fetch`, an identifier resolved
by the first category keeps that category's record, and an identifier the
first category misses is looked up in the merge of the remaining
categories run on that category's missing set: earlier categories take
precedence and are never overwritten. -/
theorem dar_fetch_earlier_category_wins (db : DB) (cs : Nat) (uuids : List Ident)
    (t : AddressType) (rest : List AddressType) (u : Ident) :
    (∀ v, (dar_fetch_one db uuids t cs).1.lookup u = some v →
      (dar_fetch db uuids (some (t :: rest)) cs).1.lookup u = some v) ∧
    ((dar_fetch_one db uuids t cs).1.lookup u = none →
      (dar_fetch db uuids (some (t :: rest)) cs).1.lookup u =
        (dar_fetch_go db cs (dar_fetch_one db uuids t cs).2.1 rest).1.lookup u) := by
  have hfetch : dar_fetch db uuids (some (t :: rest)) cs =
      dar_fetch_go db cs uuids (t :: rest) := rfl
  by_cases hm : (dar_fetch_one db uuids t cs).2.1.isEmpty
  · have hgo := go_cons_of_empty db cs uuids t rest hm
    have hnil : (dar_fetch_one db uuids t cs).2.1 = [] := by
      simpa [List.isEmpty_iff] using hm
    constructor
    · intro v hv
      rw [hfetch, hgo]
      exact hv
    · intro hnone
      rw [hfetch, hgo, hnil, go_nil_uuids]
      simpa using hnone
  · have hgo := go_cons_of_nonempty db cs uuids t rest (by simpa using hm)
    constructor
    · intro v hv
      rw [hfetch, hgo]
      exact lookup_append_some hv
    · intro hnone
      rw [hfetch, hgo]
      exact lookup_append_none hnone

/-- Witness for C6: identifier 0 is resolved by the first category and the
merged map keeps that record. -/
theorem dar_fetch_earlier_category_wins_witness :
    (dar_fetch_one exampleDb [0, 1] .adresser 150).1.lookup 0 =
      some { id := 0, payload := 100 } ∧
    (dar_fetch exampleDb [0, 1] (some [.adresser, .adgangsadresser]) 150).1.lookup 0 =
      some { id := 0, payload := 100 } := by
  refine ⟨by decide, ?_⟩
  exact (dar_fetch_earlier_category_wins exampleDb 150 [0, 1] .adresser
    [.adgangsadresser] 0).1 { id := 0, payload := 100 } (by decide)

/-- C7: whenever a category's fetch returns an empty missing set, the
category loop stops with that category's accumulated result; no request of
any later category is issued (every request carries the first category). -/
theorem dar_fetch_early_exit (db : DB) (cs : Nat) (uuids : List Ident)
    (t : AddressType) (rest : List AddressType)
    (h : (dar_fetch_one db uuids t cs).2.1 = []) :
    dar_fetch db uuids (some (t :: rest)) cs = dar_fetch_one db uuids t cs ∧
    (∀ r ∈ (dar_fetch db uuids (some (t :: rest)) cs).2.2, r.addrtype = t) := by
  have hfetch : dar_fetch db uuids (some (t :: rest)) cs =
      dar_fetch_go db cs uuids (t :: rest) := rfl
  have hm : (dar_fetch_one db uuids t cs).2.1.isEmpty = true := by
    simp [h]
  have hgo := go_cons_of_empty db cs uuids t rest hm
  rw [hfetch, hgo]
  exact ⟨rfl, one_requests_addrtype db uuids t cs⟩

/-- Witness for C7: the first category resolves both identifiers, so the
loop over two categories issues only the first category's request. -/
theorem dar_fetch_early_exit_witness :
    (dar_fetch_one exampleDb [0, 2] .adresser 150).2.1 = [] ∧
    dar_fetch exampleDb [0, 2] (some [.adresser, .adgangsadresser]) 150 =
      dar_fetch_one exampleDb [0, 2] .adresser 150 :=
  ⟨by decide,
    (dar_fetch_early_exit exampleDb 150 [0, 2] .adresser [.adgangsadresser] (by decide)).1⟩

/-- C8 counterexample: on a client with no open session, the batch fetch
invoked with an empty identifier set returns successfully instead of
failing with `ValueError` — so "every network operation invoked without an
open session fails with a configuration error, regardless of arguments" is
false as stated. -/
theorem dar_fetch_client_no_session_empty_ok :
    dar_fetch_client ⟨none, []⟩ exampleDb [] none 150 = .ok ([], [], []) ∧
    ∀ e, dar_fetch_client ⟨none, []⟩ exampleDb [] none 150 ≠ .error e := by
  constructor
  · rfl
  · intro e h
    rw [show dar_fetch_client ⟨none, []⟩ exampleDb [] none 150 = .ok ([], [], [])
      from rfl] at h
    exact Except.noConfusion h

/-- C8 (amended): double `aopen` warns and keeps the session; `aclose`
without a session warns and changes nothing; without an open session the
health probe, the single fetch (with any arguments), and the batch fetch
with a non-empty identifier set fail with `ValueError("Session not set")`;
the batch fetch with an empty identifier set short-circuits and succeeds
without touching the session. -/
theorem session_lifecycle_guards (s fresh : Nat) (w : List String) (probe : ProbeResp)
    (resp : SingleServer) (uuid : Ident) (db : DB) (uuids : List Ident)
    (ats : Option (List AddressType)) (cs : Nat) :
    ((aopen fresh ⟨some s, w⟩)._session = some s ∧
      (aopen fresh ⟨some s, w⟩).warnings = w ++ ["aopen called with existing session"]) ∧
    ((aclose ⟨none, w⟩)._session = none ∧
      (aclose ⟨none, w⟩).warnings = w ++ ["aclose called without session"]) ∧
    (healthcheck ⟨none, w⟩ probe = .error (.valueError "Session not set")) ∧
    ((dar_fetch_single ⟨none, w⟩ resp uuid ats).1 = .error (.valueError "Session not set")) ∧
    (uuids ≠ [] →
      dar_fetch_client ⟨none, w⟩ db uuids ats cs = .error (.valueError "Session not set")) ∧
    (dar_fetch_client ⟨none, w⟩ db [] ats cs = .ok ([], [], [])) := by
  refine ⟨⟨rfl, rfl⟩, ⟨rfl, rfl⟩, rfl, ?_, ?_, ?_⟩
  · unfold dar_fetch_single
    cases hts : orAllAddressTypes ats with
    | nil => exact absurd hts (orAll_ne_nil ats)
    | cons t r => rfl
  · intro hne
    unfold dar_fetch_client
    cases hts : orAllAddressTypes ats with
    | nil => exact absurd hts (orAll_ne_nil ats)
    | cons t r => exact go_client_closed_err db cs ⟨none, w⟩ rfl uuids hne t r
  · exact go_client_nil_uuids ⟨none, w⟩ db cs (orAllAddressTypes ats)

/-- Witness for C8 (amended): the batch fetch with one identifier and no
session fails with the configuration error. -/
theorem session_lifecycle_guards_witness :
    (([5] : List Ident) ≠ []) ∧
    dar_fetch_client ⟨none, []⟩ exampleDb [5] none 150 =
      .error (.valueError "Session not set") :=
  ⟨by decide,
    (session_lifecycle_guards 0 0 [] .timedOut exampleResp 0 exampleDb [5] none
      150).2.2.2.2.1 (by decide)⟩

/-- C9: with an open session the health probe returns `True` exactly on a
200 response and `False` on any other status, on a connection error and on
timeout, never raising; the single fetch by contrast propagates a
transport error instead of turning it into a boolean. -/
theorem healthcheck_bool (sess : Nat) (w : List String) :
    (∀ code, (healthcheck ⟨some sess, w⟩ (.status code) = .ok true) ↔ code = 200) ∧
    (∀ code, code ≠ 200 → healthcheck ⟨some sess, w⟩ (.status code) = .ok false) ∧
    (∀ e, healthcheck ⟨some sess, w⟩ (.connectionError e) = .ok false) ∧
    (healthcheck ⟨some sess, w⟩ .timedOut = .ok false) ∧
    (∀ (resp : SingleServer) (uuid : Ident) (e : Nat) (t : AddressType)
        (rest : List AddressType), resp uuid t = .netErr e →
      (dar_fetch_single_go ⟨some sess, w⟩ resp uuid (t :: rest)).1 =
        .error (.clientError e)) := by
  refine ⟨?_, ?_, fun e => rfl, rfl, ?_⟩
  · intro code
    by_cases hc : code = 200 <;> simp [healthcheck, hc]
  · intro code hc
    simp [healthcheck, hc]
  · intro resp uuid e t rest h
    simp [dar_fetch_single_go, h]

/-- Witness for C9: a 500 status yields `False`; a transport error in the
single fetch propagates. -/
theorem healthcheck_bool_witness :
    ((500 : Nat) ≠ 200) ∧
    healthcheck ⟨some 1, []⟩ (.status 500) = .ok false ∧
    (exampleResp 0 .historik_adgangsadresser = .netErr 3) ∧
    (dar_fetch_single_go ⟨some 1, []⟩ exampleResp 0 [.historik_adgangsadresser]).1 =
      .error (.clientError 3) :=
  ⟨by decide, (healthcheck_bool 1 []).2.1 500 (by decide), rfl,
    (healthcheck_bool 1 []).2.2.2.2 exampleResp 0 3 .historik_adgangsadresser [] rfl⟩

/-- C10: passing an explicitly empty category list behaves exactly like
passing none at all, in both the batch and the single fetch: all four
categories, in declaration order. -/
theorem empty_addrtypes_same_as_none (st : ClientState) (db : DB) (uuids : List Ident)
    (cs : Nat) (resp : SingleServer) (uuid : Ident) :
    orAllAddressTypes (some []) = ALL_ADDRESS_TYPES ∧
    orAllAddressTypes none = ALL_ADDRESS_TYPES ∧
    ALL_ADDRESS_TYPES =
      [.adresser, .adgangsadresser, .historik_adresser, .historik_adgangsadresser] ∧
    dar_fetch db uuids (some []) cs = dar_fetch db uuids none cs ∧
    dar_fetch_client st db uuids (some []) cs = dar_fetch_client st db uuids none cs ∧
    dar_fetch_single st resp uuid (some []) = dar_fetch_single st resp uuid none :=
  ⟨rfl, rfl, rfl, rfl, rfl, rfl⟩

end DarClient
